import Mathlib

/-!
Verification development for the STM32 touchscreen firmware.

The definitions below are a shallow embedding of the firmware sources:

* the bit-banged two-wire bus driver from `Core/Src/i2c_sw.c`
  (`START`, `STOP`, `WR`, `RD`, `SWI2C_Mem_Read`, `SWI2C_Mem_Write`,
  `SWI2C_BusClear`), threaded through an explicit bus state and an
  environment oracle resolving clock-stretch waits and data-line samples;
* the XPT2046 calibration/rotation mapping (`map_to_screen`, `XPT_Init`),
  with the C float arithmetic modelled by exact rationals (every quantity
  appearing in the verified cases is exactly representable in binary
  floating point, so the rational model agrees with the C computation);
* the LM75 temperature decoding from `Core/Src/sensors_lm75.c`, modelled
  at the level of 16-bit two's-complement bit patterns;
* the servo sweep step and `SERVO_SetAngle` from `Core/Src/main.c`;
* the touch-handling portion of the `main` polling loop together with the
  SETUP-screen hit testing, auto-repeat, edit application and RTC commit
  logic from `Core/Src/main.c`.  Hardware reads (RTC, LM75, ADC) enter the
  loop as per-iteration oracle inputs; microsecond delays and display
  drawing have no effect on the modelled state and are omitted.
-/

/-! ## Bit-banged two-wire bus driver (`Core/Src/i2c_sw.c`) -/

/-- Events visible on the two-wire bus that the verification tracks:
the start and stop conditions bracketing every transaction. -/
inductive BusEv
  | start
  | stop
deriving DecidableEq

/-- Environment of one bus run: whether the n-th `scl_release_wait` call
times out (the slave stretched the clock past 200 us), and the level the
n-th `SDA_RD` sample observes (`true` = line high). -/
structure BusEnv where
  sclTimeout : Nat → Bool
  sdaHigh : Nat → Bool

/-- Driver-visible bus state: the levels the master drives on SCL and SDA,
counters sequencing the two environment oracles, the trace of start/stop
conditions emitted so far, and ghost flags recording which kind of failure
occurred during the run (clock-release timeout inside `WR`, inside `RD`,
inside `STOP`, and a sampled missing acknowledgment). -/
structure BusSt where
  scl : Bool
  sda : Bool
  nWait : Nat
  nSda : Nat
  trace : List BusEv
  wrTimeout : Bool
  rdTimeout : Bool
  stopTimeout : Bool
  nack : Bool
deriving DecidableEq

/-- Bus state right after `SWI2C_Init_PB6_PB7`: both lines idle high,
nothing recorded. -/
def BusSt.init : BusSt :=
  ⟨true, true, 0, 0, [], false, false, false, false⟩

/-- Embedding of `scl_release_wait`: releases SCL (drives it high through the
pull-up) and reports whether the line actually rose before the timeout; the
outcome of the n-th wait of a run is resolved by the environment oracle. -/
def sclReleaseWait (env : BusEnv) (s : BusSt) : Bool × BusSt :=
  (!env.sclTimeout s.nWait, { s with scl := true, nWait := s.nWait + 1 })

/-- Embedding of `SDA_RD`: samples the data line. -/
def sdaRead (env : BusEnv) (s : BusSt) : Bool × BusSt :=
  (env.sdaHigh s.nSda, { s with nSda := s.nSda + 1 })

/-- Embedding of `START`: SDA and SCL high, SDA falls, then SCL falls.  Only
the net line state and the emitted start condition are observable. -/
def START (s : BusSt) : BusSt :=
  { s with sda := false, scl := false, trace := s.trace ++ [BusEv.start] }

/-- Embedding of `STOP`: data low, clock released (the result of the stretch
wait is discarded by the code, recorded here only in a ghost flag), then
data high — the stop condition, leaving both lines high. -/
def STOP (env : BusEnv) (s : BusSt) : BusSt :=
  let r := sclReleaseWait env { s with sda := false }
  { r.2 with
    sda := true
    stopTimeout := r.2.stopTimeout || !r.1
    trace := r.2.trace ++ [BusEv.stop] }

/-- The 8-bit data phase of `WR`: bit `n-1` down to bit `0` of `b` are put on
SDA while the clock is low; each released-clock wait that times out aborts
the transfer with result `false`. -/
def wrBits (env : BusEnv) (b : Nat) : Nat → BusSt → Bool × BusSt
  | 0, s => (true, s)
  | n + 1, s =>
    let r := sclReleaseWait env { s with sda := b.testBit n }
    if r.1 then wrBits env b n { r.2 with scl := false }
    else (false, { r.2 with wrTimeout := true })

/-- Embedding of `WR`: eight data bits, then the acknowledgment phase (SDA
released, clock released, ack sampled as data line low).  Returns `true`
exactly when the byte went out fully and the slave acknowledged. -/
def WR (env : BusEnv) (b : Nat) (s : BusSt) : Bool × BusSt :=
  let r := wrBits env b 8 s
  if r.1 then
    let r2 := sclReleaseWait env { r.2 with sda := true }
    if r2.1 then
      let r3 := sdaRead env r2.2
      (!r3.1, { r3.2 with scl := false, nack := r3.2.nack || r3.1 })
    else (false, { r2.2 with wrTimeout := true })
  else (false, r.2)

/-- The 8-bit data phase of `RD`: a released-clock wait that times out
breaks out of the loop (the C `break`), keeping the bits gathered so far;
no error is surfaced to the caller. -/
def rdBits (env : BusEnv) : Nat → Nat → BusSt → Nat × BusSt
  | 0, v, s => (v, s)
  | n + 1, v, s =>
    let r := sclReleaseWait env s
    if r.1 then
      let r2 := sdaRead env r.2
      rdBits env n (if r2.1 then v + 2 ^ n else v) { r2.2 with scl := false }
    else (v, { r.2 with rdTimeout := true })

/-- Embedding of `RD`: releases SDA for the slave, clocks in eight bits,
then drives the master acknowledgment (low for ACK, high for NACK) through
one more clock pulse whose stretch-wait result is discarded. -/
def RD (env : BusEnv) (ack : Bool) (s : BusSt) : Nat × BusSt :=
  let r := rdBits env 8 0 { s with sda := true }
  let r2 := sclReleaseWait env { r.2 with sda := !ack }
  (r.1, { r2.2 with rdTimeout := r2.2.rdTimeout || !r2.1, scl := false, sda := true })

/-- The data loop of `SWI2C_Mem_Read`: with `n` bytes left, every byte but
the last is acknowledged by the master. -/
def rdLoop (env : BusEnv) : Nat → BusSt → List Nat × BusSt
  | 0, s => ([], s)
  | n + 1, s =>
    let r := RD env (n != 0) s
    let rest := rdLoop env n r.2
    (r.1 :: rest.1, rest.2)

/-- Clearing the read/write bit of an 8-bit address, `addr8 & ~1U`. -/
def clearBit0 (a : Nat) : Nat := 2 * (a / 2)

/-- Setting the read bit of an 8-bit address, `addr8 | 1U`. -/
def setBit0 (a : Nat) : Nat := 2 * (a / 2) + 1

/-- Embedding of `SWI2C_Mem_Read`: start, address+write (ack expected),
register byte (ack expected), repeated start, address+read (ack expected),
`len` data bytes, stop.  `none` models `HAL_ERROR`; every return path goes
through `STOP`.  The data loop itself has no failure path. -/
def SWI2C_Mem_Read (env : BusEnv) (addr8 mem len : Nat) (s : BusSt) :
    Option (List Nat) × BusSt :=
  let r1 := WR env (clearBit0 addr8) (START s)
  if r1.1 then
    let r2 := WR env mem r1.2
    if r2.1 then
      let r3 := WR env (setBit0 addr8) (START r2.2)
      if r3.1 then
        let r4 := rdLoop env len r3.2
        (some r4.1, STOP env r4.2)
      else (none, STOP env r3.2)
    else (none, STOP env r2.2)
  else (none, STOP env r1.2)

/-- The payload loop of `SWI2C_Mem_Write`: each byte must be acknowledged. -/
def wrLoop (env : BusEnv) : List Nat → BusSt → Bool × BusSt
  | [], s => (true, s)
  | d :: ds, s =>
    let r := WR env d s
    if r.1 then wrLoop env ds r.2 else (false, r.2)

/-- Embedding of `SWI2C_Mem_Write`: start, address+write, register byte,
payload bytes, stop; `false` models `HAL_ERROR`; every return path goes
through `STOP`. -/
def SWI2C_Mem_Write (env : BusEnv) (addr8 mem : Nat) (data : List Nat) (s : BusSt) :
    Bool × BusSt :=
  let r1 := WR env (clearBit0 addr8) (START s)
  if r1.1 then
    let r2 := WR env mem r1.2
    if r2.1 then
      let r3 := wrLoop env data r2.2
      (r3.1, STOP env r3.2)
    else (false, STOP env r2.2)
  else (false, STOP env r1.2)

/-- The up-to-9 recovery clock pulses of `SWI2C_BusClear`; each pulse ends
with the clock high and the loop exits early once SDA reads high. -/
def busClearPulses (env : BusEnv) : Nat → BusSt → BusSt
  | 0, s => s
  | n + 1, s =>
    let r := sdaRead env { s with scl := true }
    if r.1 then r.2 else busClearPulses env n r.2

/-- Embedding of `SWI2C_BusClear`: if SDA is stuck low, clock up to 9 pulses
watching for it to release, then always issue a stop condition. -/
def SWI2C_BusClear (env : BusEnv) (s : BusSt) : BusSt :=
  let r := sdaRead env s
  STOP env (if r.1 then r.2 else busClearPulses env 9 r.2)

/-! ## XPT2046 calibration and rotation mapping (`i2c_sw.c`, touch part) -/

/-- The four raw-domain calibration bounds (`cal_x_min` .. `cal_y_max`). -/
structure Calib where
  xMin : Int
  xMax : Int
  yMin : Int
  yMax : Int

/-- Sequential clamping to the unit interval, as in the C source
(`if (nx < 0) nx = 0; if (nx > 1) nx = 1;`). -/
def clamp01 (q : ℚ) : ℚ := if q < 0 then 0 else if 1 < q then 1 else q

/-- Scaling a normalized coordinate by `dimension - 1` and truncating to an
integer pixel index, the `(uint16_t)(nx * (out_w - 1))` cast (the value is
nonnegative, so the C truncation toward zero is the floor). -/
def scalePx (q : ℚ) (d : Nat) : Nat := (⌊q * ((d : ℚ) - 1)⌋).toNat

/-- Embedding of `map_to_screen`: reject degenerate calibration bounds,
normalize each axis to `[0,1]` with clamping, then apply one of the four
rotation cases of the `switch` (the `default` arm repeats the `case 0`
formulas). -/
def map_to_screen (c : Calib) (rot w h : Nat) (rx ry : Nat) :
    Option (Nat × Nat) :=
  if c.xMax ≤ c.xMin ∨ c.yMax ≤ c.yMin then none
  else
    let nx := clamp01 (((rx : ℚ) - (c.xMin : ℚ)) / ((c.xMax : ℚ) - (c.xMin : ℚ)))
    let ny := clamp01 (((ry : ℚ) - (c.yMin : ℚ)) / ((c.yMax : ℚ) - (c.yMin : ℚ)))
    if rot = 0 then some (scalePx nx w, scalePx ny h)
    else if rot = 90 then some (scalePx ny w, scalePx nx h)
    else if rot = 180 then some (scalePx (1 - nx) w, scalePx (1 - ny) h)
    else if rot = 270 then some (scalePx (1 - ny) w, scalePx (1 - nx) h)
    else some (scalePx nx w, scalePx ny h)

/-- The touch-pipeline configuration stored by `XPT_Init`. -/
structure XptCfg where
  rot : Nat
  w : Nat
  h : Nat

/-- Embedding of `XPT_Init`: the rotation argument is a `uint8_t` and the
screen dimensions are `uint16_t`, so every argument is truncated to its
parameter width before being stored. -/
def XPT_Init (rotDeg w h : Nat) : XptCfg :=
  ⟨rotDeg % 256, w % 65536, h % 65536⟩

/-! ## LM75 temperature decoding (`Core/Src/sensors_lm75.c`) -/

/-- Arithmetic right shift by five of a 16-bit two's-complement pattern:
the low five bits drop out and the sign bit is replicated into bits 11-15. -/
def ashr5_16 (v : Nat) : Nat := v / 32 + if 32768 ≤ v then 63488 else 0

/-- The signed value of a 16-bit two's-complement pattern. -/
def toInt16 (v : Nat) : Int := if 32768 ≤ v then (v : Int) - 65536 else (v : Int)

/-- The pure decoding step of `LM75_ReadCelsius` on the two bytes read from
the temperature register, at the level of 16-bit patterns: assemble the
big-endian word, arithmetic-shift right by 5 (`raw >>= 5` on `int16_t`),
then the safety line `if (raw & 0x0400) raw |= 0xF800;`, and read off the
signed result. -/
def LM75_DecodeRaw (hi lo : Nat) : Int :=
  let v := (hi % 256) * 256 + lo % 256
  let s := ashr5_16 v
  let s2 := if s / 1024 % 2 = 1 then s ||| 63488 else s
  toInt16 s2

/-- The temperature in degrees Celsius: the aligned 9-bit signed value
scaled by 0.125 degrees per unit.  All values are exact in binary floating
point, so the rational model coincides with the C float computation. -/
def LM75_Celsius (hi lo : Nat) : ℚ := (LM75_DecodeRaw hi lo : ℚ) / 8

/-! ## Servo sweep (`Core/Src/main.c`) -/

/-- The servo sweep state: current angle and sweep direction. -/
structure Servo where
  angle : Int
  dir : Int
deriving DecidableEq

/-- One 20 ms sweep tick from the main loop: step the angle by `dir * 5`,
clamping at 180 and 0 and reversing the direction at the bounds. -/
def servoTick (s : Servo) : Servo :=
  let a := s.angle + s.dir * 5
  if 180 ≤ a then ⟨180, -1⟩
  else if a ≤ 0 then ⟨0, 1⟩
  else ⟨a, s.dir⟩

/-- The sweep after `n` ticks from the armed state (angle 0, direction +1). -/
def servoRun : Nat → Servo
  | 0 => ⟨0, 1⟩
  | n + 1 => servoTick (servoRun n)

/-- The triangle-wave reflection of `x` modulo 360 into `[0, 180]`. -/
def triWave (x : Nat) : Int :=
  if x % 360 ≤ 180 then ((x % 360 : Nat) : Int) else ((360 - x % 360 : Nat) : Int)

/-- The sweep state as a function of the phase `r = (5 * n) % 360`: the
reflected angle together with the current direction. -/
def servoPhase (r : Nat) : Servo :=
  ⟨if r ≤ 180 then (r : Int) else ((360 - r : Nat) : Int),
   if r < 180 then 1 else -1⟩

/-- Embedding of `SERVO_SetAngle`: clamp the commanded angle to `[0, 180]`
and map it linearly to the PWM compare value
`600 + angle * (2400 - 600) / 180` microseconds. -/
def SERVO_SetAngle (a : Int) : Nat :=
  let a2 := if a < 0 then 0 else if 180 < a then 180 else a
  600 + a2.toNat * (2400 - 600) / 180

/-! ## UI geometry and interaction loop (`Core/Src/main.c`) -/

def NAV_Y : Nat := 8
def NAV_H : Nat := 36
def NAV_W : Nat := 96
def BTN_CHECK_X : Nat := 8
def BTN_SETUP_X : Nat := BTN_CHECK_X + NAV_W + 6
def BTN_PROJ_X : Nat := BTN_SETUP_X + NAV_W + 6
def AREA_X : Nat := 6
def AREA_Y : Nat := NAV_Y + NAV_H + 6
def VAL_W : Nat := 56
def VAL_X : Nat := AREA_X + 128
def VAL1_Y : Nat := AREA_Y + 6
def VAL2_Y : Nat := AREA_Y + 56
def VAL3_Y : Nat := AREA_Y + 106
def UBTN_W : Nat := 48
def UBTN_H : Nat := 36
def UBTN_X : Nat := VAL_X + VAL_W + 8
def SBTN_W : Nat := 90
def SBTN_H : Nat := 36
def SBTN_T1_X : Nat := AREA_X
def SBTN_T2_X : Nat := AREA_X + SBTN_W + 12
def SBTN_ROW1_Y : Nat := AREA_Y + 8
def SBTN_ROW2_Y : Nat := SBTN_ROW1_Y + SBTN_H + 12
def REPEAT_DELAY_MS : Nat := 400
def REPEAT_RATE_MS : Nat := 100

/-- Embedding of `in_rect`: half-open rectangle membership. -/
def in_rect (x y rx ry rw rh : Nat) : Bool :=
  decide (rx ≤ x) && decide (x < rx + rw) && decide (ry ≤ y) && decide (y < ry + rh)

/-- The `UIState` enumeration of screens. -/
inductive UIScreen
  | startup
  | check
  | setup
  | project
deriving DecidableEq

/-- The `SetupHit` enumeration of SETUP-screen controls. -/
inductive SetupHit
  | none
  | hourPlus
  | minPlus
  | tthPlus
deriving DecidableEq

/-- The `SetupRow` enumeration of SETUP-screen rows. -/
inductive SetupRow
  | none
  | hour
  | min
  | tth
deriving DecidableEq

/-- The mutable session state of the interaction loop: the module-level
statics of `main.c` relevant to the touch/UI logic, plus two ghost fields —
the list of time triples written to the RTC and the count of effective
SETUP-control applications. -/
structure UISt where
  ui : UIScreen
  wasDown : Bool
  lastX : Nat
  lastY : Nat
  topbarDown : Bool
  setupActive : SetupHit
  setupT0 : Nat
  setupTlast : Nat
  hour : Int
  minute : Int
  second : Int
  tempThreshold : Int
  timeFromRtc : Bool
  timeDirty : Bool
  relayOn : Bool
  servoEnable : Bool
  servo : Servo
  servoT0 : Nat
  projT0 : Nat
  tempC : ℚ
  lightPct : Int
  writes : List (Int × Int × Int)
  applies : Nat
deriving DecidableEq

/-- The initial values of the module-level statics at boot. -/
def UISt.init : UISt :=
  { ui := .startup
    wasDown := false
    lastX := 0
    lastY := 0
    topbarDown := false
    setupActive := .none
    setupT0 := 0
    setupTlast := 0
    hour := 12
    minute := 34
    second := 56
    tempThreshold := 27
    timeFromRtc := true
    timeDirty := false
    relayOn := false
    servoEnable := false
    servo := ⟨0, 1⟩
    servoT0 := 0
    projT0 := 0
    tempC := ⟨53, 2, by norm_num, by norm_num⟩
    lightPct := 0
    writes := []
    applies := 0 }

/-- The oracle inputs of one polling-loop iteration: the mapped touch point
(`none` when not pressed), the millisecond tick, whether a DS1307 time
write would succeed, the decoded result of a DS1307 time read (`none` on
bus failure), the two LM75 register bytes (`none` on bus failure), and the
raw ADC light sample (`none` when the conversion fails). -/
structure LoopIn where
  touch : Option (Nat × Nat)
  now : Nat
  wOk : Bool
  timeRead : Option (Int × Int × Int)
  tempRead : Option (Nat × Nat)
  lightRaw : Option Nat

/-- Embedding of `setup_row_from_y`: the three vertical bands, tested in
the source order (threshold row first, then minute, then hour). -/
def setup_row_from_y (y : Nat) : SetupRow :=
  if VAL3_Y - 4 ≤ y ∧ y < VAL3_Y + UBTN_H + 20 then .tth
  else if VAL2_Y - 4 ≤ y ∧ y < VAL2_Y + UBTN_H + 6 then .min
  else if VAL1_Y - 4 ≤ y ∧ y < VAL1_Y + UBTN_H + 6 then .hour
  else .none

/-- Embedding of `setup_hit_test`: the threshold row accepts the whole
value-box-plus-button span; the hour and minute rows require the `+`
button subregion. -/
def setup_hit_test (x y : Nat) : SetupHit :=
  match setup_row_from_y y with
  | .none => .none
  | .tth =>
    if in_rect x y VAL_X VAL3_Y (UBTN_X + UBTN_W - VAL_X) UBTN_H then .tthPlus
    else .none
  | .hour => if in_rect x y UBTN_X VAL1_Y UBTN_W UBTN_H then .hourPlus else .none
  | .min => if in_rect x y UBTN_X VAL2_Y UBTN_W UBTN_H then .minPlus else .none

/-- Embedding of `setup_apply`: the effect of one application of a SETUP
control.  Both the hour and the minute edits reset the seconds field, flip
the time source to software and mark the time dirty; the threshold edit
cycles 20-35 with no time side effects.  The ghost counter `applies` counts
effective applications. -/
def setup_apply (h : SetupHit) (s : UISt) : UISt :=
  match h with
  | .hourPlus =>
    { s with
      timeFromRtc := false
      timeDirty := true
      second := 0
      hour := if 24 ≤ s.hour + 1 then 0 else s.hour + 1
      applies := s.applies + 1 }
  | .minPlus =>
    { s with
      timeFromRtc := false
      timeDirty := true
      second := 0
      minute := if 60 ≤ s.minute + 1 then 0 else s.minute + 1
      applies := s.applies + 1 }
  | .tthPlus =>
    { s with
      tempThreshold := if 35 < s.tempThreshold + 1 then 20 else s.tempThreshold + 1
      applies := s.applies + 1 }
  | .none => s

/-- Embedding of `Setup_CommitTimeToRTC`: nothing happens unless the time is
dirty; otherwise the current time triple is written (recorded in the ghost
`writes` list), the time source returns to the RTC only when the write
succeeded, and the dirty flag clears unconditionally. -/
def Setup_CommitTimeToRTC (wOk : Bool) (s : UISt) : UISt :=
  if s.timeDirty then
    let s1 := { s with writes := s.writes ++ [(s.hour, s.minute, s.second)] }
    let s2 := if wOk then { s1 with timeFromRtc := true } else s1
    { s2 with timeDirty := false }
  else s

/-- Embedding of `REFRESH_Time_From_DS1307`: on a successful read the three
time fields are overwritten and the time source flips back to the RTC. -/
def REFRESH_Time_From_DS1307 (r : Option (Int × Int × Int)) (s : UISt) : UISt :=
  match r with
  | some t => { s with hour := t.1, minute := t.2.1, second := t.2.2, timeFromRtc := true }
  | none => s

/-- Embedding of `REFRESH_Temp_From_LM75`: on a successful bus read the
decoded Celsius value is stored. -/
def REFRESH_Temp_From_LM75 (r : Option (Nat × Nat)) (s : UISt) : UISt :=
  match r with
  | some b => { s with tempC := LM75_Celsius b.1 b.2 }
  | none => s

/-- Embedding of `REFRESH_Light_From_ADC`: clamp the raw sample to 12 bits,
convert to an inverted percentage with a 10 percent dead zone rescaled to
the full range. -/
def REFRESH_Light_From_ADC (r : Option Nat) (s : UISt) : UISt :=
  match r with
  | some raw0 =>
    let raw := min raw0 4095
    let pct := raw * 100 / 4095
    let lpct := 100 - pct
    let lpct2 := if lpct ≤ 10 then 0 else (lpct - 10) * 100 / 90
    { s with lightPct := (lpct2 : Int) }
  | none => s

/-- Embedding of `handle_touch_topbar`: dispatch on the three navigation
rectangles; leaving SETUP toward CHECK or PROJECT first commits any pending
time edit; entering PROJECT redraws the screen (refreshing temperature and
light) and resets the refresh timer. -/
def handle_touch_topbar (x y : Nat) (inp : LoopIn) (s : UISt) : UISt :=
  if in_rect x y BTN_CHECK_X NAV_Y NAV_W NAV_H then
    let s1 := if s.ui = .setup then Setup_CommitTimeToRTC inp.wOk s else s
    { s1 with ui := .check }
  else if in_rect x y BTN_SETUP_X NAV_Y NAV_W NAV_H then
    { s with ui := .setup }
  else if in_rect x y BTN_PROJ_X NAV_Y NAV_W NAV_H then
    let s1 := if s.ui = .setup then Setup_CommitTimeToRTC inp.wOk s else s
    let s2 := REFRESH_Light_From_ADC inp.lightRaw (REFRESH_Temp_From_LM75 inp.tempRead s1)
    { s2 with ui := .project, projT0 := inp.now }
  else s

/-- Embedding of `handle_touch_check`: the four CHECK-screen buttons; the
relay toggle re-arms the sweep from angle 0 going up when switching on and
only disarms it when switching off. -/
def handle_touch_check (x y : Nat) (inp : LoopIn) (s : UISt) : UISt :=
  if in_rect x y SBTN_T1_X SBTN_ROW1_Y SBTN_W SBTN_H then
    REFRESH_Time_From_DS1307 inp.timeRead s
  else if in_rect x y SBTN_T2_X SBTN_ROW1_Y SBTN_W SBTN_H then
    REFRESH_Temp_From_LM75 inp.tempRead s
  else if in_rect x y SBTN_T1_X SBTN_ROW2_Y SBTN_W SBTN_H then
    REFRESH_Light_From_ADC inp.lightRaw s
  else if in_rect x y SBTN_T2_X SBTN_ROW2_Y SBTN_W SBTN_H then
    if s.relayOn then { s with relayOn := false, servoEnable := false }
    else
      { s with
        relayOn := true
        servoEnable := true
        servo := ⟨0, 1⟩
        servoT0 := inp.now }
  else s

/-- The touch-handling section of the `main` polling loop: edge-triggered
press detection with the navigation-origin flag, SETUP-screen auto-repeat
while held on the same control, and release dispatch. -/
def loopTouch (inp : LoopIn) (s : UISt) : UISt :=
  match inp.touch with
  | some p =>
    if s.wasDown then
      let s1 := { s with lastX := p.1, lastY := p.2 }
      if s1.ui = .setup ∧ s1.setupActive ≠ .none then
        if setup_hit_test p.1 p.2 = s1.setupActive then
          if REPEAT_DELAY_MS ≤ inp.now - s1.setupT0 ∧
              REPEAT_RATE_MS ≤ inp.now - s1.setupTlast then
            setup_apply s1.setupActive { s1 with setupTlast := inp.now }
          else s1
        else s1
      else s1
    else
      let tb := in_rect p.1 p.2 BTN_CHECK_X NAV_Y NAV_W NAV_H ||
        in_rect p.1 p.2 BTN_SETUP_X NAV_Y NAV_W NAV_H ||
        in_rect p.1 p.2 BTN_PROJ_X NAV_Y NAV_W NAV_H
      let s1 := { s with wasDown := true, lastX := p.1, lastY := p.2, topbarDown := tb }
      if s1.ui = .setup ∧ tb = false then
        let act := setup_hit_test p.1 p.2
        if act ≠ .none then
          setup_apply act { s1 with setupActive := act, setupT0 := inp.now, setupTlast := inp.now }
        else { s1 with setupActive := act }
      else s1
  | none =>
    if s.wasDown then
      let s1 :=
        if s.topbarDown then handle_touch_topbar s.lastX s.lastY inp s
        else
          match s.ui with
          | .startup => s
          | .check => handle_touch_check s.lastX s.lastY inp s
          | .setup => s
          | .project => s
      { s1 with wasDown := false, topbarDown := false, setupActive := .none }
    else s

/-- The PROJECT-screen 1 Hz refresh section of the polling loop: when the
interval elapsed, either re-read the RTC (fields untouched on failure) or
advance the software clock with 60/60/24 wraparound, then re-sample
temperature and light. -/
def projectRefresh (inp : LoopIn) (s : UISt) : UISt :=
  if s.ui = .project ∧ 1000 ≤ inp.now - s.projT0 then
    let s1 := { s with projT0 := inp.now }
    let s2 :=
      if s1.timeFromRtc then
        match inp.timeRead with
        | some t => { s1 with hour := t.1, minute := t.2.1, second := t.2.2 }
        | none => s1
      else
        if 60 ≤ s1.second + 1 then
          if 60 ≤ s1.minute + 1 then
            { s1 with
              second := 0
              minute := 0
              hour := if 24 ≤ s1.hour + 1 then 0 else s1.hour + 1 }
          else { s1 with second := 0, minute := s1.minute + 1 }
        else { s1 with second := s1.second + 1 }
    REFRESH_Light_From_ADC inp.lightRaw (REFRESH_Temp_From_LM75 inp.tempRead s2)
  else s

/-- The non-blocking servo-sweep section of the polling loop. -/
def servoStep (inp : LoopIn) (s : UISt) : UISt :=
  if s.servoEnable = true ∧ 20 ≤ inp.now - s.servoT0 then
    { s with servoT0 := inp.now, servo := servoTick s.servo }
  else s

/-- One full iteration of the polling loop body (touch handling, PROJECT
refresh, servo sweep). -/
def loopIter (inp : LoopIn) (s : UISt) : UISt :=
  servoStep inp (projectRefresh inp (loopTouch inp s))

/-- Running the polling loop over a list of per-iteration inputs. -/
def runLoop (l : List LoopIn) (s : UISt) : UISt :=
  l.foldl (fun st i => loopIter i st) s

/-- The session state on entry to the SETUP screen. -/
def setupStart : UISt := { UISt.init with ui := .setup }

/-- A screen point inside the hour `+` button of the SETUP screen. -/
def hourPlusPoint : Nat × Nat := (UBTN_X + 1, VAL1_Y + 1)

/-- The loop input of one held-touch poll at millisecond `t` (finger on the
hour `+` control, no sensor traffic). -/
def holdIn (t : Nat) : LoopIn :=
  { touch := some hourPlusPoint
    now := t
    wOk := false
    timeRead := Option.none
    tempRead := Option.none
    lightRaw := Option.none }

/-- The idealized continuous hold on the hour `+` control: the loop polls
once every millisecond, at times `0, 1, ..., T-1`, with the finger down
throughout (the release at time `T` fires no SETUP action). -/
def holdTrace (T : Nat) : List LoopIn := (List.range T).map holdIn

/-- The timestamp of the most recent auto-repeat fire after `T` polls of the
idealized hold (0 while no repeat fired yet). -/
def lastFire (T : Nat) : Nat :=
  if 401 ≤ T then 400 + 100 * ((T - 401) / 100) else 0

/-- The number of increments applied during `T` polls of the idealized
hold: one on the press, plus one repeat at 400 ms and one more every full
100 ms of the hold past that. -/
def holdCount (T : Nat) : Nat :=
  if T = 0 then 0 else if 401 ≤ T then 2 + (T - 401) / 100 else 1

/-- Closed form of the session state after `T ≥ 1` polls of the idealized
hold on the hour `+` control. -/
def holdState (T : Nat) : UISt :=
  { setupStart with
    wasDown := true
    lastX := hourPlusPoint.1
    lastY := hourPlusPoint.2
    setupActive := .hourPlus
    setupT0 := 0
    setupTlast := lastFire T
    hour := (12 + (holdCount T : Int)) % 24
    second := 0
    timeFromRtc := false
    timeDirty := true
    applies := holdCount T }

/-- A loop input carrying only a touch sample and the tick: no sensor
traffic succeeds during the iteration. -/
def touchIn (t : Option (Nat × Nat)) (now : Nat) (wOk : Bool) : LoopIn :=
  ⟨t, now, wOk, Option.none, Option.none, Option.none⟩

/-- A bus environment in which every acknowledgment is given (SDA always
samples low) and exactly one clock-release wait times out: the 28th wait of
the run, which for a one-byte `SWI2C_Mem_Read` is the first data-bit wait
inside `RD` (the three address/register writes consume waits 0-26). -/
def stretchEnv : BusEnv := ⟨fun n => n == 27, fun _ => false⟩

/-- A touch that starts on the `Check` navigation button, drags off the
navigation bar, and releases. -/
def dragTrace : List LoopIn :=
  [touchIn (some (10, 10)) 0 false,
   touchIn (some (200, 200)) 1 false,
   touchIn Option.none 2 false]

/-- A screen point inside the `Project` navigation button. -/
def projTapPoint : Nat × Nat := (BTN_PROJ_X + 1, NAV_Y + 1)

/-- SETUP scenario, first half: tap the hour `+` control once, then tap the
`Project` navigation button (the time write succeeds). -/
def c6Trace1 : List LoopIn :=
  [touchIn (some hourPlusPoint) 0 false,
   touchIn Option.none 1 false,
   touchIn (some projTapPoint) 2 false,
   touchIn Option.none 3 true]

/-- SETUP scenario, second half: tap the `Project` navigation button again
with no intervening edit. -/
def c6Trace2 : List LoopIn :=
  [touchIn (some projTapPoint) 4 false,
   touchIn Option.none 5 true]

/-- A release iteration input. -/
def releaseIn : LoopIn := touchIn Option.none 0 false

/-- A session state in mid-press whose touch began on the `Check`
navigation button. -/
def c4PressState : UISt :=
  { UISt.init with wasDown := true, topbarDown := true, lastX := 10, lastY := 10 }

/-- A SETUP-screen session state with a dirty time edit, mid-press on the
`Project` navigation button. -/
def c6NavState : UISt :=
  { UISt.init with
    ui := .setup
    wasDown := true
    topbarDown := true
    lastX := projTapPoint.1
    lastY := projTapPoint.2
    timeDirty := true }

/-! ## Helper lemmas: ghost-flag bookkeeping of the bus primitives -/

theorem wrBits_ghost (env : BusEnv) (b : Nat) :
    ∀ (n : Nat) (s : BusSt),
      (wrBits env b n s).2.nack = s.nack ∧
      (wrBits env b n s).2.rdTimeout = s.rdTimeout ∧
      (wrBits env b n s).2.stopTimeout = s.stopTimeout ∧
      (wrBits env b n s).2.trace = s.trace ∧
      ((wrBits env b n s).1 = true → (wrBits env b n s).2.wrTimeout = s.wrTimeout) ∧
      ((wrBits env b n s).1 = false → (wrBits env b n s).2.wrTimeout = true) := by
  intro n
  induction n with
  | zero => intro s; simp [wrBits]
  | succ n ih =>
    intro s
    simp only [wrBits, sclReleaseWait]
    split
    · exact ih _
    · simp

theorem WR_ghost (env : BusEnv) (b : Nat) (s : BusSt) :
    (WR env b s).2.rdTimeout = s.rdTimeout ∧
    (WR env b s).2.stopTimeout = s.stopTimeout ∧
    (WR env b s).2.trace = s.trace ∧
    ((WR env b s).1 = true →
      (WR env b s).2.wrTimeout = s.wrTimeout ∧ (WR env b s).2.nack = s.nack) ∧
    ((WR env b s).1 = false →
      (WR env b s).2.wrTimeout = true ∨ (WR env b s).2.nack = true) := by
  have hb := wrBits_ghost env b 8 s
  simp only [WR, sclReleaseWait, sdaRead]
  split
  · rename_i hok
    split
    · simp_all
    · simp_all
  · rename_i hko
    rw [Bool.not_eq_true] at hko
    simp_all

theorem rdBits_ghost (env : BusEnv) :
    ∀ (n v : Nat) (s : BusSt),
      (rdBits env n v s).2.nack = s.nack ∧
      (rdBits env n v s).2.wrTimeout = s.wrTimeout ∧
      (rdBits env n v s).2.stopTimeout = s.stopTimeout ∧
      (rdBits env n v s).2.trace = s.trace := by
  intro n
  induction n with
  | zero => intro v s; simp [rdBits]
  | succ n ih =>
    intro v s
    simp only [rdBits, sclReleaseWait, sdaRead]
    split
    · exact ih _ _
    · simp

theorem RD_ghost (env : BusEnv) (ack : Bool) (s : BusSt) :
    (RD env ack s).2.nack = s.nack ∧
    (RD env ack s).2.wrTimeout = s.wrTimeout ∧
    (RD env ack s).2.stopTimeout = s.stopTimeout ∧
    (RD env ack s).2.trace = s.trace := by
  have hb := rdBits_ghost env 8 0 { s with sda := true }
  simp only [RD, sclReleaseWait]
  simp_all

theorem rdLoop_ghost (env : BusEnv) :
    ∀ (n : Nat) (s : BusSt),
      (rdLoop env n s).2.nack = s.nack ∧
      (rdLoop env n s).2.wrTimeout = s.wrTimeout ∧
      (rdLoop env n s).2.stopTimeout = s.stopTimeout ∧
      (rdLoop env n s).2.trace = s.trace := by
  intro n
  induction n with
  | zero => intro s; simp [rdLoop]
  | succ n ih =>
    intro s
    have hr := RD_ghost env (n != 0) s
    have hl := ih (RD env (n != 0) s).2
    simp only [rdLoop]
    simp_all

theorem STOP_spec (env : BusEnv) (s : BusSt) :
    (STOP env s).nack = s.nack ∧
    (STOP env s).wrTimeout = s.wrTimeout ∧
    (STOP env s).rdTimeout = s.rdTimeout ∧
    (STOP env s).trace = s.trace ++ [BusEv.stop] ∧
    (STOP env s).scl = true ∧
    (STOP env s).sda = true := by
  simp [STOP, sclReleaseWait]

theorem START_ghost (s : BusSt) :
    (START s).nack = s.nack ∧
    (START s).wrTimeout = s.wrTimeout ∧
    (START s).rdTimeout = s.rdTimeout ∧
    (START s).stopTimeout = s.stopTimeout := by
  simp [START]

theorem STOP_ends (env : BusEnv) (s : BusSt) :
    (STOP env s).trace.getLast? = some BusEv.stop ∧
    (STOP env s).scl = true ∧
    (STOP env s).sda = true := by
  refine ⟨?_, (STOP_spec env s).2.2.2.2.1, (STOP_spec env s).2.2.2.2.2⟩
  rw [(STOP_spec env s).2.2.2.1]
  simp

/-- Claim C2: every bus operation leaves the bus stopped and idle-high on
every control path: `SWI2C_Mem_Read` and `SWI2C_Mem_Write` emit a stop
condition before returning on each failure branch as well as on success,
and `SWI2C_BusClear` always ends by issuing a stop condition whether or not
the stuck data line released within its up-to-9 clock pulses. -/
theorem c2_bus_ops_always_stop :
    (∀ (env : BusEnv) (addr8 mem len : Nat) (s : BusSt),
      (SWI2C_Mem_Read env addr8 mem len s).2.trace.getLast? = some BusEv.stop ∧
      (SWI2C_Mem_Read env addr8 mem len s).2.scl = true ∧
      (SWI2C_Mem_Read env addr8 mem len s).2.sda = true) ∧
    (∀ (env : BusEnv) (addr8 mem : Nat) (data : List Nat) (s : BusSt),
      (SWI2C_Mem_Write env addr8 mem data s).2.trace.getLast? = some BusEv.stop ∧
      (SWI2C_Mem_Write env addr8 mem data s).2.scl = true ∧
      (SWI2C_Mem_Write env addr8 mem data s).2.sda = true) ∧
    (∀ (env : BusEnv) (s : BusSt),
      (SWI2C_BusClear env s).trace.getLast? = some BusEv.stop ∧
      (SWI2C_BusClear env s).scl = true ∧
      (SWI2C_BusClear env s).sda = true) := by
  refine ⟨?_, ?_, ?_⟩
  · intro env addr8 mem len s
    simp only [SWI2C_Mem_Read]
    split
    · split
      · split
        · exact STOP_ends env _
        · exact STOP_ends env _
      · exact STOP_ends env _
    · exact STOP_ends env _
  · intro env addr8 mem data s
    simp only [SWI2C_Mem_Write]
    split
    · split
      · exact STOP_ends env _
      · exact STOP_ends env _
    · exact STOP_ends env _
  · intro env s
    exact STOP_ends env _

/-- Claim C1, counterexample: in the environment `stretchEnv` every
acknowledgment is present but the clock-release wait of the first data-bit
read times out, yet `SWI2C_Mem_Read` of one byte returns success — so
"error iff some ack absent or some clock-release wait times out" is false
on the code. -/
theorem c1_counterexample :
    ¬ (((SWI2C_Mem_Read stretchEnv 208 0 1 BusSt.init).1 = Option.none) ↔
       ((SWI2C_Mem_Read stretchEnv 208 0 1 BusSt.init).2.nack = true ∨
        (SWI2C_Mem_Read stretchEnv 208 0 1 BusSt.init).2.wrTimeout = true ∨
        (SWI2C_Mem_Read stretchEnv 208 0 1 BusSt.init).2.rdTimeout = true ∨
        (SWI2C_Mem_Read stretchEnv 208 0 1 BusSt.init).2.stopTimeout = true)) := by
  decide

/-- Claim C1 as amended: `SWI2C_Mem_Read` returns a communication error if
and only if an expected acknowledgment is absent or a clock-release wait
times out during one of the three address/register write phases; a
clock-release timeout during the data-byte reads (or inside the stop
condition) does not fail the call — it returns success with whatever bits
were captured. -/
theorem c1_memread_error_iff_write_phase_failure
    (env : BusEnv) (addr8 mem len : Nat) :
    (SWI2C_Mem_Read env addr8 mem len BusSt.init).1 = Option.none ↔
      ((SWI2C_Mem_Read env addr8 mem len BusSt.init).2.nack = true ∨
       (SWI2C_Mem_Read env addr8 mem len BusSt.init).2.wrTimeout = true) := by
  have hi : (START BusSt.init).nack = false ∧ (START BusSt.init).wrTimeout = false :=
    ⟨rfl, rfl⟩
  simp only [SWI2C_Mem_Read]
  generalize hA : START BusSt.init = sA at hi
  obtain ⟨hiN, hiW⟩ := hi
  have g1 := WR_ghost env (clearBit0 addr8) sA
  cases h1 : (WR env (clearBit0 addr8) sA).1 with
  | false =>
    have hstop := STOP_spec env (WR env (clearBit0 addr8) sA).2
    have hfail := g1.2.2.2.2 h1
    simp only [h1, Bool.false_eq_true, if_false, hstop.1, hstop.2.1]
    simpa using hfail.symm
  | true =>
    have hN1 : (WR env (clearBit0 addr8) sA).2.nack = false := by
      rw [(g1.2.2.2.1 h1).2, hiN]
    have hW1 : (WR env (clearBit0 addr8) sA).2.wrTimeout = false := by
      rw [(g1.2.2.2.1 h1).1, hiW]
    simp only [h1, if_true]
    generalize hB : (WR env (clearBit0 addr8) sA).2 = sB at hN1 hW1
    have g2 := WR_ghost env mem sB
    cases h2 : (WR env mem sB).1 with
    | false =>
      have hstop := STOP_spec env (WR env mem sB).2
      have hfail := g2.2.2.2.2 h2
      simp only [h2, Bool.false_eq_true, if_false, hstop.1, hstop.2.1]
      simpa using hfail.symm
    | true =>
      have hN2 : (WR env mem sB).2.nack = false := by rw [(g2.2.2.2.1 h2).2, hN1]
      have hW2 : (WR env mem sB).2.wrTimeout = false := by rw [(g2.2.2.2.1 h2).1, hW1]
      simp only [h2, if_true]
      generalize hC : (WR env mem sB).2 = sC at hN2 hW2
      have hN2' : (START sC).nack = false := by rw [(START_ghost sC).1, hN2]
      have hW2' : (START sC).wrTimeout = false := by rw [(START_ghost sC).2.1, hW2]
      generalize hD : START sC = sD at hN2' hW2'
      have g3 := WR_ghost env (setBit0 addr8) sD
      cases h3 : (WR env (setBit0 addr8) sD).1 with
      | false =>
        have hstop := STOP_spec env (WR env (setBit0 addr8) sD).2
        have hfail := g3.2.2.2.2 h3
        simp only [h3, Bool.false_eq_true, if_false, hstop.1, hstop.2.1]
        simpa using hfail.symm
      | true =>
        have hN3 : (WR env (setBit0 addr8) sD).2.nack = false := by
          rw [(g3.2.2.2.1 h3).2, hN2']
        have hW3 : (WR env (setBit0 addr8) sD).2.wrTimeout = false := by
          rw [(g3.2.2.2.1 h3).1, hW2']
        simp only [h3, if_true]
        generalize hE : (WR env (setBit0 addr8) sD).2 = sE at hN3 hW3
        have gl := rdLoop_ghost env len sE
        have hstop := STOP_spec env (rdLoop env len sE).2
        simp only [hstop.1, hstop.2.1, gl.1, gl.2.1, hN3, hW3]
        simp

/-- Claim C7: `map_to_screen` reports unmapped exactly when the calibration
bounds are degenerate (max at or below min on either axis), and with valid
bounds it normalizes, clamps and scales by `dimension - 1` with integer
truncation — witnessed by the three specified sample points for bounds
0..100 on both axes, rotation 0, on a 320 by 240 screen. -/
theorem c7_map_to_screen_spec :
    (∀ (c : Calib) (rot w h rx ry : Nat),
      map_to_screen c rot w h rx ry = Option.none ↔
        (c.xMax ≤ c.xMin ∨ c.yMax ≤ c.yMin)) ∧
    map_to_screen ⟨0, 100, 0, 100⟩ 0 320 240 0 0 = some (0, 0) ∧
    map_to_screen ⟨0, 100, 0, 100⟩ 0 320 240 100 100 = some (319, 239) ∧
    map_to_screen ⟨0, 100, 0, 100⟩ 0 320 240 50 50 = some (159, 119) := by
  refine ⟨?_, ?_, ?_, ?_⟩
  · intro c rot w h rx ry
    by_cases hdeg : c.xMax ≤ c.xMin ∨ c.yMax ≤ c.yMin
    · simp [map_to_screen, hdeg]
    · simp only [map_to_screen, if_neg hdeg]
      split
      · simp [hdeg]
      · split
        · simp [hdeg]
        · split
          · simp [hdeg]
          · split
            · simp [hdeg]
            · simp [hdeg]
  · norm_num [map_to_screen, clamp01, scalePx]
  · norm_num [map_to_screen, clamp01, scalePx]
    decide
  · norm_num [map_to_screen, clamp01, scalePx]
    decide

/-- Claim C9: the LM75 decoding interprets the two register bytes as a
big-endian 16-bit field, arithmetically shifts right by 5 and scales by
0.125 degrees per unit; consequently eight times the decoded value is
always an integer, and every raw value with high byte 0xFF decodes to a
negative temperature.  The sample 0x1900 decodes to exactly 25 degrees. -/
theorem c9_lm75_decode :
    (∀ hi lo : Nat, ∃ z : ℤ, LM75_Celsius hi lo * 8 = (z : ℚ)) ∧
    LM75_Celsius 25 0 = 25 ∧
    (∀ lo : Nat, lo < 256 → LM75_Celsius 255 lo < 0) := by
  have hraw : ∀ lo : Nat, lo < 256 → LM75_DecodeRaw 255 lo < 0 := by
    set_option maxRecDepth 4000 in decide
  refine ⟨?_, ?_, ?_⟩
  · intro hi lo
    refine ⟨LM75_DecodeRaw hi lo, ?_⟩
    unfold LM75_Celsius
    rw [div_mul_cancel₀]
    norm_num
  · have h25 : LM75_DecodeRaw 25 0 = 200 := by decide
    unfold LM75_Celsius
    rw [h25]
    norm_num
  · intro lo hlo
    have h := hraw lo hlo
    unfold LM75_Celsius
    apply div_neg_of_neg_of_pos
    · exact_mod_cast h
    · norm_num

/-- Claim C9, witness instantiating the bounded universal at a raw value
with high byte 0xFF. -/
theorem c9_witness : LM75_Celsius 255 0 < 0 :=
  c9_lm75_decode.2.2 0 (by decide)

/-- Helper for claim C10: every rotation selector other than the four
listed cases takes the `default` arm of the `switch`, which computes the
same formulas as the `case 0` arm. -/
theorem map_to_screen_default (c : Calib) (rot w h rx ry : Nat)
    (h0 : rot ≠ 0) (h90 : rot ≠ 90) (h180 : rot ≠ 180) (h270 : rot ≠ 270) :
    map_to_screen c rot w h rx ry = map_to_screen c 0 w h rx ry := by
  unfold map_to_screen
  split
  · rfl
  · simp [h0, h90, h180, h270]

/-- Claim C10: the 270-degree rotation arm is unreachable through the
public interface — `XPT_Init` truncates its `uint8_t` rotation argument, so
270 becomes 14, no stored rotation can equal 270, and every configured
rotation other than exactly 0, 90 or 180 (including the truncated 270)
selects the default arm, which maps identically to rotation 0. -/
theorem c10_rot270_unreachable :
    (XPT_Init 270 320 240).rot = 14 ∧
    (∀ r w h : Nat, (XPT_Init r w h).rot ≠ 270) ∧
    (∀ (rot : Nat) (c : Calib) (w h rx ry : Nat),
      rot ≠ 0 → rot ≠ 90 → rot ≠ 180 → rot ≠ 270 →
      map_to_screen c rot w h rx ry = map_to_screen c 0 w h rx ry) ∧
    (∀ (c : Calib) (rx ry : Nat),
      map_to_screen c (XPT_Init 270 320 240).rot 320 240 rx ry =
        map_to_screen c 0 320 240 rx ry) := by
  refine ⟨by decide, ?_, ?_, ?_⟩
  · intro r w h
    have : r % 256 < 256 := Nat.mod_lt _ (by decide)
    simp only [XPT_Init]
    omega
  · intro rot c w h rx ry h0 h90 h180 h270
    exact map_to_screen_default c rot w h rx ry h0 h90 h180 h270
  · intro c rx ry
    exact map_to_screen_default c 14 320 240 rx ry
      (by decide) (by decide) (by decide) (by decide)

/-- Claim C10, witness instantiating the default-arm equivalence at the
truncated rotation value 14. -/
theorem c10_witness :
    map_to_screen ⟨0, 100, 0, 100⟩ 14 320 240 50 50 =
      map_to_screen ⟨0, 100, 0, 100⟩ 0 320 240 50 50 :=
  c10_rot270_unreachable.2.2.1 14 ⟨0, 100, 0, 100⟩ 320 240 50 50
    (by decide) (by decide) (by decide) (by decide)

/-- Helper for claim C8: one sweep tick advances the phase representation
by 5 degrees modulo 360, for every reachable phase (a multiple of 5 below
360). -/
theorem servoTick_phase :
    ∀ m : Fin 72, servoTick (servoPhase (5 * m.val)) = servoPhase ((5 * m.val + 5) % 360) := by
  decide

/-- Helper for claim C8: after `N` ticks from the armed state the sweep sits
at the phase `5 * N` modulo 360. -/
theorem servoRun_phase : ∀ N : Nat, servoRun N = servoPhase (5 * N % 360) := by
  intro N
  induction N with
  | zero => rfl
  | succ n ih =>
    have hm : 5 * n % 360 = 5 * (n % 72) := Nat.mul_mod_mul_left 5 n 72
    have hlt : n % 72 < 72 := Nat.mod_lt _ (by decide)
    have hstep := servoTick_phase ⟨n % 72, hlt⟩
    have hnext : (5 * (n % 72) + 5) % 360 = 5 * (n + 1) % 360 := by omega
    rw [servoRun, ih, hm, hstep, hnext]

/-- Claim C8: with the sweep armed at angle 0 and direction +1, after `N`
20 ms ticks the angle equals the triangle-wave reflection of `5 * N` modulo
360 into `[0, 180]` (for example `N = 40` gives 160), with the direction
determined by the phase, and each commanded angle `a` in `[0, 180]` is
output as a pulse width of `600 + a * 1800 / 180` time units, so 0 gives
600 and 180 gives 2400. -/
theorem c8_servo_sweep :
    (∀ N : Nat, (servoRun N).angle = triWave (5 * N)) ∧
    (∀ N : Nat, (servoRun N).dir = if 5 * N % 360 < 180 then 1 else -1) ∧
    (servoRun 40).angle = 160 ∧
    SERVO_SetAngle 0 = 600 ∧
    SERVO_SetAngle 180 = 2400 ∧
    (∀ a : Int, 0 ≤ a → a ≤ 180 → SERVO_SetAngle a = 600 + a.toNat * 1800 / 180) := by
  have hangle : ∀ N : Nat, (servoRun N).angle = triWave (5 * N) := by
    intro N
    rw [servoRun_phase N]
    have hmm : 5 * N % 360 % 360 = 5 * N % 360 := Nat.mod_mod_of_dvd _ (by decide)
    simp [servoPhase, triWave, hmm]
  refine ⟨hangle, ?_, ?_, by decide, by decide, ?_⟩
  · intro N
    rw [servoRun_phase N]
    rfl
  · rw [hangle 40]
    decide
  · intro a h0 h180
    unfold SERVO_SetAngle
    rw [if_neg (by omega), if_neg (by omega)]

/-- Claim C8, witness instantiating the pulse-width map at angle 90. -/
theorem c8_witness : SERVO_SetAngle 90 = 600 + (90 : Int).toNat * 1800 / 180 :=
  c8_servo_sweep.2.2.2.2.2 90 (by decide) (by decide)

/-- Claim C5, counterexample: applying the Hour `+` control once does not
leave the seconds field unchanged — the code resets seconds to zero on an
hour edit as well (`second = 0` in the `SH_HOUR_PLUS` arm), while the claim
asserts only a Minute edit does so. -/
theorem c5_counterexample :
    ¬ ((setup_apply SetupHit.hourPlus setupStart).second = setupStart.second) := by
  decide

/-- Claim C5 as amended: one application of a SETUP control has exactly
these effects — Hour `+` increments the hour with wraparound 0-23 and also
resets seconds to zero; Minute `+` increments the minute with wraparound
0-59 and also resets seconds to zero; Threshold `+` cycles the threshold
20-35 wrapping back to 20 past 35, with no side effects on any time field;
and any Hour or Minute edit sets the time source to software-advanced and
marks the time dirty. -/
theorem c5_setup_apply_effects :
    (∀ s : UISt, 0 ≤ s.hour → s.hour < 24 →
      (setup_apply .hourPlus s).hour = (s.hour + 1) % 24 ∧
      (setup_apply .hourPlus s).second = 0 ∧
      (setup_apply .hourPlus s).minute = s.minute ∧
      (setup_apply .hourPlus s).tempThreshold = s.tempThreshold ∧
      (setup_apply .hourPlus s).timeFromRtc = false ∧
      (setup_apply .hourPlus s).timeDirty = true) ∧
    (∀ s : UISt, 0 ≤ s.minute → s.minute < 60 →
      (setup_apply .minPlus s).minute = (s.minute + 1) % 60 ∧
      (setup_apply .minPlus s).second = 0 ∧
      (setup_apply .minPlus s).hour = s.hour ∧
      (setup_apply .minPlus s).tempThreshold = s.tempThreshold ∧
      (setup_apply .minPlus s).timeFromRtc = false ∧
      (setup_apply .minPlus s).timeDirty = true) ∧
    (∀ s : UISt, 20 ≤ s.tempThreshold → s.tempThreshold ≤ 35 →
      (setup_apply .tthPlus s).tempThreshold =
        (if s.tempThreshold = 35 then 20 else s.tempThreshold + 1) ∧
      (setup_apply .tthPlus s).hour = s.hour ∧
      (setup_apply .tthPlus s).minute = s.minute ∧
      (setup_apply .tthPlus s).second = s.second ∧
      (setup_apply .tthPlus s).timeFromRtc = s.timeFromRtc ∧
      (setup_apply .tthPlus s).timeDirty = s.timeDirty) := by
  refine ⟨?_, ?_, ?_⟩
  · intro s h0 h24
    simp [setup_apply]
    split <;> omega
  · intro s h0 h60
    simp [setup_apply]
    split <;> omega
  · intro s h20 h35
    simp [setup_apply]
    split <;> split <;> omega

/-- Claim C5, witness instantiating the amended Hour `+` effects at the
boot-time SETUP state. -/
theorem c5_witness :
    (setup_apply SetupHit.hourPlus setupStart).hour = (setupStart.hour + 1) % 24 ∧
    (setup_apply SetupHit.hourPlus setupStart).second = 0 ∧
    (setup_apply SetupHit.hourPlus setupStart).minute = setupStart.minute ∧
    (setup_apply SetupHit.hourPlus setupStart).tempThreshold = setupStart.tempThreshold ∧
    (setup_apply SetupHit.hourPlus setupStart).timeFromRtc = false ∧
    (setup_apply SetupHit.hourPlus setupStart).timeDirty = true :=
  c5_setup_apply_effects.1 setupStart (by decide) (by decide)

/-! ## Helper lemmas: frame properties of the interaction-loop pieces -/

theorem setup_apply_ui (h : SetupHit) (s : UISt) : (setup_apply h s).ui = s.ui := by
  cases h <;> rfl

theorem setup_apply_writes (h : SetupHit) (s : UISt) :
    (setup_apply h s).writes = s.writes := by
  cases h <;> rfl

theorem REFRESH_Time_ui (r : Option (Int × Int × Int)) (s : UISt) :
    (REFRESH_Time_From_DS1307 r s).ui = s.ui := by
  cases r <;> rfl

theorem REFRESH_Time_writes (r : Option (Int × Int × Int)) (s : UISt) :
    (REFRESH_Time_From_DS1307 r s).writes = s.writes := by
  cases r <;> rfl

theorem REFRESH_Temp_ui (r : Option (Nat × Nat)) (s : UISt) :
    (REFRESH_Temp_From_LM75 r s).ui = s.ui := by
  cases r <;> rfl

theorem REFRESH_Temp_writes (r : Option (Nat × Nat)) (s : UISt) :
    (REFRESH_Temp_From_LM75 r s).writes = s.writes := by
  cases r <;> rfl

theorem REFRESH_Light_ui (r : Option Nat) (s : UISt) :
    (REFRESH_Light_From_ADC r s).ui = s.ui := by
  cases r <;> rfl

theorem REFRESH_Light_writes (r : Option Nat) (s : UISt) :
    (REFRESH_Light_From_ADC r s).writes = s.writes := by
  cases r <;> rfl

theorem check_ui (x y : Nat) (inp : LoopIn) (s : UISt) :
    (handle_touch_check x y inp s).ui = s.ui := by
  unfold handle_touch_check
  split
  · rw [REFRESH_Time_ui]
  · split
    · rw [REFRESH_Temp_ui]
    · split
      · rw [REFRESH_Light_ui]
      · split
        · split <;> rfl
        · rfl

theorem check_writes (x y : Nat) (inp : LoopIn) (s : UISt) :
    (handle_touch_check x y inp s).writes = s.writes := by
  unfold handle_touch_check
  split
  · rw [REFRESH_Time_writes]
  · split
    · rw [REFRESH_Temp_writes]
    · split
      · rw [REFRESH_Light_writes]
      · split
        · split <;> rfl
        · rfl

theorem commit_ui (wOk : Bool) (s : UISt) :
    (Setup_CommitTimeToRTC wOk s).ui = s.ui := by
  unfold Setup_CommitTimeToRTC
  split
  · split <;> rfl
  · rfl

theorem commit_clean (wOk : Bool) (s : UISt) (h : s.timeDirty = false) :
    Setup_CommitTimeToRTC wOk s = s := by
  simp [Setup_CommitTimeToRTC, h]

theorem commit_writes_dirty (wOk : Bool) (s : UISt) (h : s.timeDirty = true) :
    (Setup_CommitTimeToRTC wOk s).writes = s.writes ++ [(s.hour, s.minute, s.second)] := by
  simp only [Setup_CommitTimeToRTC, h, if_true]
  split <;> rfl

theorem topbar_ui (x y : Nat) (inp : LoopIn) (s : UISt) :
    (handle_touch_topbar x y inp s).ui =
      (if in_rect x y BTN_CHECK_X NAV_Y NAV_W NAV_H then UIScreen.check
       else if in_rect x y BTN_SETUP_X NAV_Y NAV_W NAV_H then UIScreen.setup
       else if in_rect x y BTN_PROJ_X NAV_Y NAV_W NAV_H then UIScreen.project
       else s.ui) := by
  unfold handle_touch_topbar
  split
  · rfl
  · split
    · rfl
    · split <;> rfl

theorem projectRefresh_ui (inp : LoopIn) (s : UISt) :
    (projectRefresh inp s).ui = s.ui := by
  simp only [projectRefresh]
  split
  · rw [REFRESH_Light_ui, REFRESH_Temp_ui]
    split
    · split <;> rfl
    · split
      · split <;> rfl
      · rfl
  · rfl

theorem projectRefresh_writes (inp : LoopIn) (s : UISt) :
    (projectRefresh inp s).writes = s.writes := by
  simp only [projectRefresh]
  split
  · rw [REFRESH_Light_writes, REFRESH_Temp_writes]
    split
    · split <;> rfl
    · split
      · split <;> rfl
      · rfl
  · rfl

theorem servoStep_ui (inp : LoopIn) (s : UISt) : (servoStep inp s).ui = s.ui := by
  unfold servoStep
  split <;> rfl

theorem servoStep_writes (inp : LoopIn) (s : UISt) :
    (servoStep inp s).writes = s.writes := by
  unfold servoStep
  split <;> rfl

theorem loopTouch_touch_ui (inp : LoopIn) (s : UISt) (p : Nat × Nat)
    (h : inp.touch = some p) : (loopTouch inp s).ui = s.ui := by
  simp only [loopTouch, h]
  split
  · split
    · split
      · split
        · rw [setup_apply_ui]
        · rfl
      · rfl
    · rfl
  · split
    · split
      · rw [setup_apply_ui]
      · rfl
    · rfl

theorem loopTouch_touch_writes (inp : LoopIn) (s : UISt) (p : Nat × Nat)
    (h : inp.touch = some p) : (loopTouch inp s).writes = s.writes := by
  simp only [loopTouch, h]
  split
  · split
    · split
      · split
        · rw [setup_apply_writes]
        · rfl
      · rfl
    · rfl
  · split
    · split
      · rw [setup_apply_writes]
      · rfl
    · rfl

theorem loopIter_ui_touch (inp : LoopIn) (s : UISt) :
    (loopIter inp s).ui = (loopTouch inp s).ui := by
  unfold loopIter
  rw [servoStep_ui, projectRefresh_ui]

theorem loopIter_writes_touch (inp : LoopIn) (s : UISt) :
    (loopIter inp s).writes = (loopTouch inp s).writes := by
  unfold loopIter
  rw [servoStep_writes, projectRefresh_writes]

/-- Helper for claim C6: the RTC writes performed by a navigation-bar
release, as a function of the release position and the session state. -/
theorem topbar_writes (x y : Nat) (inp : LoopIn) (s : UISt) :
    (handle_touch_topbar x y inp s).writes =
      if ((in_rect x y BTN_CHECK_X NAV_Y NAV_W NAV_H = true ∨
           (in_rect x y BTN_CHECK_X NAV_Y NAV_W NAV_H = false ∧
            in_rect x y BTN_SETUP_X NAV_Y NAV_W NAV_H = false ∧
            in_rect x y BTN_PROJ_X NAV_Y NAV_W NAV_H = true)) ∧
          s.ui = UIScreen.setup ∧ s.timeDirty = true)
      then s.writes ++ [(s.hour, s.minute, s.second)]
      else s.writes := by
  unfold handle_touch_topbar
  by_cases hc : in_rect x y BTN_CHECK_X NAV_Y NAV_W NAV_H = true
  · rw [if_pos hc]
    by_cases hsu : s.ui = UIScreen.setup
    · rw [if_pos hsu]
      cases hd : s.timeDirty with
      | true =>
        rw [if_pos ⟨Or.inl hc, hsu, rfl⟩]
        exact commit_writes_dirty inp.wOk s hd
      | false =>
        rw [if_neg (by simp [hd])]
        show (Setup_CommitTimeToRTC inp.wOk s).writes = s.writes
        rw [commit_clean inp.wOk s hd]
    · rw [if_neg hsu, if_neg (by simp [hsu])]
  · rw [if_neg hc]
    have hc' : in_rect x y BTN_CHECK_X NAV_Y NAV_W NAV_H = false := by
      simpa using hc
    by_cases hs : in_rect x y BTN_SETUP_X NAV_Y NAV_W NAV_H = true
    · rw [if_pos hs, if_neg (by simp [hc', hs])]
    · rw [if_neg hs]
      have hs' : in_rect x y BTN_SETUP_X NAV_Y NAV_W NAV_H = false := by
        simpa using hs
      by_cases hp : in_rect x y BTN_PROJ_X NAV_Y NAV_W NAV_H = true
      · rw [if_pos hp]
        by_cases hsu : s.ui = UIScreen.setup
        · rw [if_pos hsu]
          cases hd : s.timeDirty with
          | true =>
            rw [if_pos ⟨Or.inr ⟨hc', hs', hp⟩, hsu, rfl⟩,
              REFRESH_Light_writes, REFRESH_Temp_writes]
            exact commit_writes_dirty inp.wOk s hd
          | false =>
            rw [if_neg (by simp [hd]), REFRESH_Light_writes, REFRESH_Temp_writes]
            show (Setup_CommitTimeToRTC inp.wOk s).writes = s.writes
            rw [commit_clean inp.wOk s hd]
        · rw [if_neg hsu, if_neg (by simp [hsu]),
            REFRESH_Light_writes, REFRESH_Temp_writes]
      · rw [if_neg hp, if_neg (by simp [hc', hp])]

/-- Claim C4, counterexample: a touch that presses down on the `Check`
navigation button, drags off the bar and releases produces no screen
change, so navigation does not fire regardless of where the touch ends. -/
theorem c4_counterexample :
    in_rect 10 10 BTN_CHECK_X NAV_Y NAV_W NAV_H = true ∧
    (runLoop dragTrace UISt.init).ui = UIScreen.startup := by
  exact ⟨by decide, by decide⟩

/-- Claim C4 as amended: a screen change happens only at the release of a
touch whose press began on the navigation bar, and the target is determined
by hit-testing the last touch position before release — releasing outside
every navigation button cancels the navigation, and releasing over a
different navigation button navigates to that one. -/
theorem c4_navigation_on_release (inp : LoopIn) (s : UISt) :
    (loopIter inp s).ui ≠ s.ui →
      inp.touch = Option.none ∧ s.wasDown = true ∧ s.topbarDown = true ∧
      (loopIter inp s).ui =
        (if in_rect s.lastX s.lastY BTN_CHECK_X NAV_Y NAV_W NAV_H then UIScreen.check
         else if in_rect s.lastX s.lastY BTN_SETUP_X NAV_Y NAV_W NAV_H then UIScreen.setup
         else if in_rect s.lastX s.lastY BTN_PROJ_X NAV_Y NAV_W NAV_H then UIScreen.project
         else s.ui) := by
  intro hne
  rw [loopIter_ui_touch] at hne ⊢
  cases htouch : inp.touch with
  | some p => exact absurd (loopTouch_touch_ui inp s p htouch) hne
  | none =>
    cases hw : s.wasDown with
    | false =>
      exfalso
      apply hne
      simp [loopTouch, htouch, hw]
    | true =>
      cases htb : s.topbarDown with
      | false =>
        exfalso
        apply hne
        simp only [loopTouch, htouch, hw, htb]
        cases hui : s.ui <;> simp [check_ui, hui]
      | true =>
        refine ⟨rfl, rfl, rfl, ?_⟩
        have hgoal : (loopTouch inp s).ui =
            (handle_touch_topbar s.lastX s.lastY inp s).ui := by
          simp [loopTouch, htouch, hw, htb]
        rw [hgoal, topbar_ui]

/-- Claim C4, witness: release of a press that began on the `Check` button
while the last position is still on it does navigate to the CHECK screen. -/
theorem c4_witness :
    releaseIn.touch = Option.none ∧ c4PressState.wasDown = true ∧
    c4PressState.topbarDown = true ∧
    (loopIter releaseIn c4PressState).ui =
      (if in_rect c4PressState.lastX c4PressState.lastY BTN_CHECK_X NAV_Y NAV_W NAV_H
        then UIScreen.check
       else if in_rect c4PressState.lastX c4PressState.lastY BTN_SETUP_X NAV_Y NAV_W NAV_H
        then UIScreen.setup
       else if in_rect c4PressState.lastX c4PressState.lastY BTN_PROJ_X NAV_Y NAV_W NAV_H
        then UIScreen.project
       else c4PressState.ui) :=
  c4_navigation_on_release releaseIn c4PressState (by decide)

/-- Claim C6: the edited time is written to the RTC only when leaving the
SETUP screen via a navigation release and only if the dirty flag is set;
the dirty flag clears unconditionally after the commit attempt and the time
source flips back to the hardware clock only if the write succeeded; the
hour-edit-then-navigate-to-Project scenario commits exactly once and a
second navigation to Project with no intervening edit performs no write. -/
theorem c6_commit_semantics :
    (∀ (wOk : Bool) (s : UISt), s.timeDirty = false →
      Setup_CommitTimeToRTC wOk s = s) ∧
    (∀ (wOk : Bool) (s : UISt), s.timeDirty = true →
      (Setup_CommitTimeToRTC wOk s).writes = s.writes ++ [(s.hour, s.minute, s.second)] ∧
      (Setup_CommitTimeToRTC wOk s).timeDirty = false ∧
      (Setup_CommitTimeToRTC wOk s).timeFromRtc =
        (if wOk = true then true else s.timeFromRtc)) ∧
    (∀ (inp : LoopIn) (s : UISt), (loopIter inp s).writes ≠ s.writes →
      inp.touch = Option.none ∧ s.wasDown = true ∧ s.topbarDown = true ∧
      s.ui = UIScreen.setup ∧ s.timeDirty = true ∧
      (in_rect s.lastX s.lastY BTN_CHECK_X NAV_Y NAV_W NAV_H = true ∨
       (in_rect s.lastX s.lastY BTN_CHECK_X NAV_Y NAV_W NAV_H = false ∧
        in_rect s.lastX s.lastY BTN_SETUP_X NAV_Y NAV_W NAV_H = false ∧
        in_rect s.lastX s.lastY BTN_PROJ_X NAV_Y NAV_W NAV_H = true)) ∧
      (loopIter inp s).writes = s.writes ++ [(s.hour, s.minute, s.second)]) ∧
    (runLoop c6Trace1 setupStart).writes = [(13, 34, 0)] ∧
    (runLoop (c6Trace1 ++ c6Trace2) setupStart).writes = [(13, 34, 0)] := by
  refine ⟨?_, ?_, ?_, by decide, by decide⟩
  · intro wOk s h
    exact commit_clean wOk s h
  · intro wOk s h
    refine ⟨commit_writes_dirty wOk s h, ?_, ?_⟩
    · simp only [Setup_CommitTimeToRTC, h, if_true]
    · simp only [Setup_CommitTimeToRTC, h, if_true]
      cases wOk <;> simp
  · intro inp s hne
    rw [loopIter_writes_touch] at hne ⊢
    cases htouch : inp.touch with
    | some p => exact absurd (loopTouch_touch_writes inp s p htouch) hne
    | none =>
      cases hw : s.wasDown with
      | false =>
        exfalso
        apply hne
        simp [loopTouch, htouch, hw]
      | true =>
        cases htb : s.topbarDown with
        | false =>
          exfalso
          apply hne
          simp only [loopTouch, htouch, hw, htb]
          cases hui : s.ui <;> simp [check_writes, hui]
        | true =>
          have hwr : (loopTouch inp s).writes =
              (handle_touch_topbar s.lastX s.lastY inp s).writes := by
            simp [loopTouch, htouch, hw, htb]
          rw [hwr, topbar_writes] at hne ⊢
          by_cases hcond :
            ((in_rect s.lastX s.lastY BTN_CHECK_X NAV_Y NAV_W NAV_H = true ∨
              (in_rect s.lastX s.lastY BTN_CHECK_X NAV_Y NAV_W NAV_H = false ∧
               in_rect s.lastX s.lastY BTN_SETUP_X NAV_Y NAV_W NAV_H = false ∧
               in_rect s.lastX s.lastY BTN_PROJ_X NAV_Y NAV_W NAV_H = true)) ∧
             s.ui = UIScreen.setup ∧ s.timeDirty = true)
          · rw [if_pos hcond] at hne ⊢
            exact ⟨rfl, rfl, rfl, hcond.2.1, hcond.2.2, hcond.1, rfl⟩
          · rw [if_neg hcond] at hne
            exact absurd rfl hne

/-- Claim C6, witness: releasing a navigation-bar press over the `Project`
button while on SETUP with a dirty edit performs exactly the one commit
write. -/
theorem c6_witness :
    releaseIn.touch = Option.none ∧ c6NavState.wasDown = true ∧
    c6NavState.topbarDown = true ∧ c6NavState.ui = UIScreen.setup ∧
    c6NavState.timeDirty = true ∧
    (in_rect c6NavState.lastX c6NavState.lastY BTN_CHECK_X NAV_Y NAV_W NAV_H = true ∨
     (in_rect c6NavState.lastX c6NavState.lastY BTN_CHECK_X NAV_Y NAV_W NAV_H = false ∧
      in_rect c6NavState.lastX c6NavState.lastY BTN_SETUP_X NAV_Y NAV_W NAV_H = false ∧
      in_rect c6NavState.lastX c6NavState.lastY BTN_PROJ_X NAV_Y NAV_W NAV_H = true)) ∧
    (loopIter releaseIn c6NavState).writes =
      c6NavState.writes ++ [(c6NavState.hour, c6NavState.minute, c6NavState.second)] :=
  c6_commit_semantics.2.2.1 releaseIn c6NavState (by decide)

/-! ## Helper lemmas: the idealized SETUP hold (claim C3) -/

theorem projectRefresh_skip (inp : LoopIn) (s : UISt) (h : s.ui ≠ UIScreen.project) :
    projectRefresh inp s = s := by
  unfold projectRefresh
  rw [if_neg]
  simp [h]

theorem servoStep_skip (inp : LoopIn) (s : UISt) (h : s.servoEnable = false) :
    servoStep inp s = s := by
  unfold servoStep
  rw [if_neg]
  simp [h]

theorem holdFire_succ (n : Nat) (hn : 1 ≤ n) (hc : 400 ≤ n ∧ 100 ≤ n - lastFire n) :
    holdCount (n + 1) = holdCount n + 1 ∧ lastFire (n + 1) = n := by
  unfold holdCount lastFire at *
  split_ifs at * <;> omega

theorem holdNoFire_succ (n : Nat) (hn : 1 ≤ n) (hc : ¬(400 ≤ n ∧ 100 ≤ n - lastFire n)) :
    holdCount (n + 1) = holdCount n ∧ lastFire (n + 1) = lastFire n := by
  unfold holdCount lastFire at *
  split_ifs at * <;> omega

theorem hold_hit : setup_hit_test hourPlusPoint.1 hourPlusPoint.2 = SetupHit.hourPlus := by
  decide

theorem holdStep_fire (n : Nat) (_hn : 1 ≤ n) (hc : 400 ≤ n ∧ 100 ≤ n - lastFire n)
    (hcnt : holdCount (n + 1) = holdCount n + 1) (hlf : lastFire (n + 1) = n) :
    loopTouch (holdIn n) (holdState n) = holdState (n + 1) := by
  obtain ⟨hc1, hc2⟩ := hc
  simp only [loopTouch, holdIn, holdState, setupStart, UISt.init, hold_hit,
    REPEAT_DELAY_MS, REPEAT_RATE_MS, setup_apply, hcnt, hlf]
  simp [hc1, hc2, UISt.mk.injEq]
  split_ifs <;> omega

theorem holdStep_nofire (n : Nat) (_hn : 1 ≤ n) (hc : ¬(400 ≤ n ∧ 100 ≤ n - lastFire n))
    (hcnt : holdCount (n + 1) = holdCount n) (hlf : lastFire (n + 1) = lastFire n) :
    loopTouch (holdIn n) (holdState n) = holdState (n + 1) := by
  simp only [loopTouch, holdIn, holdState, setupStart, UISt.init, hold_hit,
    REPEAT_DELAY_MS, REPEAT_RATE_MS, hcnt, hlf]
  simp [hc, UISt.mk.injEq]

theorem holdStep_eq (n : Nat) (hn : 1 ≤ n) :
    loopIter (holdIn n) (holdState n) = holdState (n + 1) := by
  have hui : (holdState (n + 1)).ui ≠ UIScreen.project := by
    simp [holdState, setupStart, UISt.init]
  have hse : (holdState (n + 1)).servoEnable = false := by
    simp [holdState, setupStart, UISt.init]
  have hlt : loopTouch (holdIn n) (holdState n) = holdState (n + 1) := by
    by_cases hc : 400 ≤ n ∧ 100 ≤ n - lastFire n
    · obtain ⟨hcnt, hlf⟩ := holdFire_succ n hn hc
      exact holdStep_fire n hn hc hcnt hlf
    · obtain ⟨hcnt, hlf⟩ := holdNoFire_succ n hn hc
      exact holdStep_nofire n hn hc hcnt hlf
  unfold loopIter
  rw [hlt, projectRefresh_skip _ _ hui, servoStep_skip _ _ hse]

/-- Helper for claim C3: closed form of the session state throughout the
idealized hold on the hour `+` control. -/
theorem holdRun_eq : ∀ T : Nat, 1 ≤ T → runLoop (holdTrace T) setupStart = holdState T := by
  intro T
  induction T with
  | zero => intro h; exact absurd h (by decide)
  | succ n ih =>
    intro _
    by_cases hn : 1 ≤ n
    · have hsplit : holdTrace (n + 1) = holdTrace n ++ [holdIn n] := by
        simp [holdTrace, List.range_succ]
      rw [hsplit]
      have hfold : runLoop (holdTrace n ++ [holdIn n]) setupStart =
          loopIter (holdIn n) (runLoop (holdTrace n) setupStart) := by
        simp [runLoop, List.foldl_append]
      rw [hfold, ih hn]
      exact holdStep_eq n hn
    · have hn0 : n = 0 := by omega
      subst hn0
      set_option maxRecDepth 8000 in decide

/-- Claim C3, counterexample: a continuous 950 ms hold on the Hour `+`
control (polled once per millisecond) produces 7 increments, not the
`1 + floor(max(0, T - 400) / 100) = 6` the claim asserts — the first
auto-repeat fires already at 400 ms because the last-fire timestamp starts
equal to the press timestamp, so repeats land at 400, 500, ..., 900 ms. -/
theorem c3_counterexample :
    (runLoop (holdTrace 950) setupStart).applies ≠ 1 + (max 0 (950 - 400)) / 100 := by
  rw [holdRun_eq 950 (by norm_num)]
  decide

/-- Claim C3 as amended: under once-per-millisecond polling, a continuous
hold of duration `T ≥ 1` ms on the Hour `+` control increments the hour
field exactly `1 + ceil(max(0, T - 400) / 100)` times (one increment on the
press, the first repeat at 400 ms, then one repeat per full 100 ms), with
the hour wrapping modulo 24; a 950 ms hold yields 7 increments. -/
theorem c3_hold_increment_count (T : Nat) (h : 1 ≤ T) :
    (runLoop (holdTrace T) setupStart).applies =
      1 + (if T ≤ 400 then 0 else (T - 401) / 100 + 1) ∧
    (runLoop (holdTrace T) setupStart).hour =
      (12 + ((1 + (if T ≤ 400 then 0 else (T - 401) / 100 + 1) : Nat) : Int)) % 24 := by
  rw [holdRun_eq T h]
  have hcnt : holdCount T = 1 + (if T ≤ 400 then 0 else (T - 401) / 100 + 1) := by
    unfold holdCount
    split_ifs <;> omega
  constructor
  · show holdCount T = _
    exact hcnt
  · show (12 + (holdCount T : Int)) % 24 = _
    rw [hcnt]

/-- Claim C3, witness: the amended count instantiated at the 950 ms hold. -/
theorem c3_witness :
    (runLoop (holdTrace 950) setupStart).applies =
      1 + (if 950 ≤ 400 then 0 else (950 - 401) / 100 + 1) ∧
    (runLoop (holdTrace 950) setupStart).hour =
      (12 + ((1 + (if 950 ≤ 400 then 0 else (950 - 401) / 100 + 1) : Nat) : Int)) % 24 :=
  c3_hold_increment_count 950 (by norm_num)
